import Mathlib

/-!
Shallow embedding of `scripts/mouse_remap.py`: a daemon that discovers
evdev input devices exposing three recognized button codes, spawns one
listener per device, and dispatches fixed key combos through the external
`ydotool` tool on key-down events.
-/

namespace MouseRemap

/-- Constant `ecodes.EV_KEY` from evdev. -/
def EV_KEY : Nat := 1

/-- Top button (`BTN_EXTRA`), from the source constants. -/
def TOP_BUTTON : Nat := 276

/-- Bottom button (`BTN_SIDE`), from the source constants. -/
def BOTTOM_BUTTON : Nat := 275

/-- Middle button (`BTN_MIDDLE`), from the source constants. -/
def MIDDLE_BUTTON : Nat := 274

/-- An evdev input event: `event.type`, `event.code`, `event.value`. -/
structure InputEvent where
  type : Nat
  code : Nat
  value : Nat
deriving DecidableEq, Repr

/-- Helper for `pySplit`: walks the characters, accumulating the current
token reversed; whitespace ends a token, and empty tokens are dropped. -/
def pySplitAux : List Char → List Char → List String
  | [], acc => if acc.isEmpty then [] else [String.mk acc.reverse]
  | c :: rest, acc =>
    if c.isWhitespace then
      (if acc.isEmpty then [] else [String.mk acc.reverse]) ++ pySplitAux rest []
    else pySplitAux rest (c :: acc)

/-- Python `str.split()` with no arguments: split on whitespace runs,
dropping empty tokens. -/
def pySplit (s : String) : List String :=
  pySplitAux s.data []

/-- The argument vector built in `run_ydotool_key`:
`cmd = ["ydotool", "key"] + combo_str.split()`. -/
def ydotoolCmd (combo : String) : List String :=
  ["ydotool", "key"] ++ pySplit combo

/-- Outcome of `subprocess.run(cmd, check=True, capture_output=True)`:
success, a non-zero exit (raises `CalledProcessError`), or a launch
failure (raises e.g. `FileNotFoundError`). -/
inductive SubprocResult where
  | ok : SubprocResult
  | exitNonzero : Nat → SubprocResult
  | launchFailure : SubprocResult
deriving DecidableEq, Repr

/-- Result of one call to `run_ydotool_key`: the argument vectors of the
subprocess invocations attempted, whether an error was logged, and whether
an exception escaped to the caller. -/
structure DispatchResult where
  attempts : List (List String)
  errorLogged : Bool
  raised : Bool
deriving DecidableEq, Repr

/-- Function `run_ydotool_key(combo_str)`: builds the argument vector, runs the
subprocess once, and catches every exception (`except Exception`),
logging an error; nothing propagates to the caller and there is no
retry. `subproc` models the environment's behaviour for a given argv. -/
def run_ydotool_key (combo : String) (subproc : List String → SubprocResult) :
    DispatchResult :=
  let cmd := ydotoolCmd combo
  match subproc cmd with
  | SubprocResult.ok => { attempts := [cmd], errorLogged := false, raised := false }
  | SubprocResult.exitNonzero _ => { attempts := [cmd], errorLogged := true, raised := false }
  | SubprocResult.launchFailure => { attempts := [cmd], errorLogged := true, raised := false }

/-- The per-event body of the `monitor_device` read loop: the list of
combos dispatched for one event (empty or a singleton).  Mirrors the
nested `if event.type == ecodes.EV_KEY / event.value == 1 / event.code`
chain of the source. -/
def eventDispatch (e : InputEvent) : List String :=
  if e.type = EV_KEY then
    if e.value = 1 then
      if e.code = TOP_BUTTON then ["super+shift+3"]
      else if e.code = BOTTOM_BUTTON then ["ctrl+v"]
      else if e.code = 274 then ["ctrl+c"]
      else []
    else []
  else []

/-- The combo the source maps to a button code, if the code is
recognized. -/
def comboFor (code : Nat) : Option String :=
  if code = TOP_BUTTON then some "super+shift+3"
  else if code = BOTTOM_BUTTON then some "ctrl+v"
  else if code = 274 then some "ctrl+c"
  else none

/-- All combos dispatched by one listener processing `events` in arrival
order (the `for event in device.read_loop()` loop). -/
def monitorDispatches (events : List InputEvent) : List String :=
  events.flatMap eventDispatch

/-- One device's behaviour as seen by its listener: whether opening the
device raises, the events read before the stream ends, and whether the
stream ends with an I/O error (rather than running forever). -/
structure DeviceSession where
  openFails : Bool
  events : List InputEvent
  readError : Bool
deriving DecidableEq, Repr

/-- Result of one `monitor_device` call: combos dispatched, whether the
surrounding `except Exception` logged an error, and whether an exception
escaped to the caller. -/
structure ListenerResult where
  dispatches : List String
  errorLogged : Bool
  raised : Bool
deriving DecidableEq, Repr

/-- Function `monitor_device(path)`: opens the device and runs the read loop inside
a single `try/except Exception` that logs an error and returns.  An open
failure dispatches nothing; a read error ends the loop after the events
already read; no exception propagates and the listener is not retried. -/
def monitor_device (s : DeviceSession) : ListenerResult :=
  if s.openFails then
    { dispatches := [], errorLogged := true, raised := false }
  else
    { dispatches := monitorDispatches s.events
    , errorLogged := s.readError
    , raised := false }

/-- Running the full dispatcher for each combo a listener's event stream
produces, in order. -/
def monitorRun (events : List InputEvent) (subproc : List String → SubprocResult) :
    List DispatchResult :=
  (monitorDispatches events).map (fun c => run_ydotool_key c subproc)

/-- The independent listeners spawned by `main`, one per session. -/
def runListeners (sessions : List DeviceSession) : List ListenerResult :=
  sessions.map monitor_device

/-- Example session: device A reads one top-button press, then its read
loop fails. -/
def sessA : DeviceSession :=
  { openFails := false
  , events := [{ type := EV_KEY, code := 276, value := 1 }]
  , readError := true }

/-- Example session: device B reads one bottom-button press and keeps
running. -/
def sessB : DeviceSession :=
  { openFails := false
  , events := [{ type := EV_KEY, code := 275, value := 1 }]
  , readError := false }

/-- A device candidate seen during discovery: its path and the outcome of
`evdev.InputDevice(path)` / `device.capabilities()` — `none` when opening
or capability inspection raises, otherwise the capability dictionary as
an association list from event type to supported key codes. -/
structure Candidate where
  path : String
  inspect : Option (List (Nat × List Nat))
deriving DecidableEq, Repr

/-- Lookup `capabilities[ecodes.EV_KEY]` when `ecodes.EV_KEY in capabilities`,
else `none`. -/
def keyCaps (caps : List (Nat × List Nat)) : Option (List Nat) :=
  (caps.find? (fun p => p.1 = EV_KEY)).map Prod.snd

/-- The selection test of the discovery loop:
`TOP_BUTTON in keys or BOTTOM_BUTTON in keys or MIDDLE_BUTTON in keys`. -/
def wanted (keys : List Nat) : Bool :=
  keys.contains TOP_BUTTON || keys.contains BOTTOM_BUTTON || keys.contains MIDDLE_BUTTON

/-- Whether one candidate is appended to `discovered_paths`. -/
def selectCandidate (c : Candidate) : Bool :=
  match c.inspect with
  | none => false
  | some caps =>
    match keyCaps caps with
    | none => false
    | some keys => wanted keys

/-- The discovery loop of `main`: the paths appended to
`discovered_paths`, in enumeration order. -/
def discover (cs : List Candidate) : List String :=
  (cs.filter selectCandidate).map Candidate.path

/-- The paths for which discovery logged a "Could not check device"
warning (open or inspection raised). -/
def discoverWarnings (cs : List Candidate) : List String :=
  (cs.filter (fun c => c.inspect.isNone)).map Candidate.path

/-- Modelled after the spec sentence for refinement comparison in C6: a
candidate is selected iff it can be opened and inspected and its
key-event capability set meets the recognized button-code set. -/
def specSelected (c : Candidate) : Prop :=
  ∃ caps, c.inspect = some caps ∧
    ∃ k, k ∈ (keyCaps caps).getD [] ∧ k ∈ [TOP_BUTTON, BOTTOM_BUTTON, MIDDLE_BUTTON]

/-- The observable outcome of `main`: exit code (`none` = runs forever),
the paths for which listener threads were spawned, all combos dispatched
by those listeners, and whether the shutdown message was logged. -/
structure MainResult where
  exitCode : Option Nat
  spawned : List String
  dispatches : List String
  shutdownLogged : Bool
deriving DecidableEq, Repr

/-- Function `main()`: discovery, the empty check with `sys.exit(1)`, thread
spawning, and the sleep loop ended only by `KeyboardInterrupt`.  `env`
gives each path's device behaviour; `interrupt` says whether an
interrupt signal arrives during the sleep loop. -/
def pyMain (cs : List Candidate) (env : String → DeviceSession) (interrupt : Bool) :
    MainResult :=
  let paths := discover cs
  if paths.isEmpty then
    { exitCode := some 1, spawned := [], dispatches := [], shutdownLogged := false }
  else
    let results := paths.map (fun p => monitor_device (env p))
    if interrupt then
      { exitCode := some 0
      , spawned := paths
      , dispatches := (results.map ListenerResult.dispatches).flatten
      , shutdownLogged := true }
    else
      { exitCode := none
      , spawned := paths
      , dispatches := (results.map ListenerResult.dispatches).flatten
      , shutdownLogged := false }

/-! Helper lemmas shared by several claims. -/

/-- Every combo an event can dispatch is one of the three fixed strings. -/
theorem eventDispatch_mem_fixed (e : InputEvent) (c : String)
    (h : c ∈ eventDispatch e) :
    c = "super+shift+3" ∨ c = "ctrl+v" ∨ c = "ctrl+c" := by
  unfold eventDispatch at h
  split at h
  · split at h
    · split at h
      · simp at h; tauto
      · split at h
        · simp at h; tauto
        · split at h
          · simp at h; tauto
          · simp at h
    · simp at h
  · simp at h

/-- The selection test holds iff some supported key is a recognized code. -/
theorem wanted_iff (keys : List Nat) :
    wanted keys = true ↔
      ∃ k, k ∈ keys ∧ k ∈ [TOP_BUTTON, BOTTOM_BUTTON, MIDDLE_BUTTON] := by
  simp only [wanted, Bool.or_eq_true, List.contains, List.elem_iff]
  constructor
  · rintro ((h | h) | h)
    · exact ⟨TOP_BUTTON, h, by simp⟩
    · exact ⟨BOTTOM_BUTTON, h, by simp⟩
    · exact ⟨MIDDLE_BUTTON, h, by simp⟩
  · rintro ⟨k, hk, hm⟩
    simp only [List.mem_cons, List.not_mem_nil, or_false] at hm
    rcases hm with rfl | rfl | rfl
    · exact Or.inl (Or.inl hk)
    · exact Or.inl (Or.inr hk)
    · exact Or.inr hk

/-! The claim theorems. -/

/-- C1: for every recognized button code B (276 top, 275 bottom,
274 middle), a key event for B with value 1 (down) makes the listener
invoke the dispatcher exactly once with the combo mapped to B, while a
key event for B with value 0 (up) or 2 (repeat) produces no dispatch. -/
theorem down_dispatches_once_up_repeat_none (B : Nat)
    (hB : B = TOP_BUTTON ∨ B = BOTTOM_BUTTON ∨ B = MIDDLE_BUTTON) :
    (∃ c, comboFor B = some c ∧
      monitorDispatches [{ type := EV_KEY, code := B, value := 1 }] = [c]) ∧
    monitorDispatches [{ type := EV_KEY, code := B, value := 0 }] = [] ∧
    monitorDispatches [{ type := EV_KEY, code := B, value := 2 }] = [] := by
  rcases hB with rfl | rfl | rfl
  · exact ⟨⟨"super+shift+3", by decide, by decide⟩, by decide, by decide⟩
  · exact ⟨⟨"ctrl+v", by decide, by decide⟩, by decide, by decide⟩
  · exact ⟨⟨"ctrl+c", by decide, by decide⟩, by decide, by decide⟩

/-- Witness for C1 at the top button, code 276. -/
theorem down_dispatches_once_up_repeat_none_witness :
    (276 = TOP_BUTTON ∨ 276 = BOTTOM_BUTTON ∨ 276 = MIDDLE_BUTTON) ∧
    ((∃ c, comboFor 276 = some c ∧
      monitorDispatches [{ type := EV_KEY, code := 276, value := 1 }] = [c]) ∧
    monitorDispatches [{ type := EV_KEY, code := 276, value := 0 }] = [] ∧
    monitorDispatches [{ type := EV_KEY, code := 276, value := 2 }] = []) :=
  ⟨Or.inl (by decide),
   down_dispatches_once_up_repeat_none 276 (Or.inl (by decide))⟩

/-- C2: a key event whose code is not 276, 275 or 274 produces no
dispatch, whatever its value (down, up or repeat). -/
theorem unrecognized_code_no_dispatch (e : InputEvent)
    (h : e.code ≠ TOP_BUTTON ∧ e.code ≠ BOTTOM_BUTTON ∧ e.code ≠ MIDDLE_BUTTON) :
    monitorDispatches [e] = [] := by
  obtain ⟨h1, h2, h3⟩ := h
  simp only [MIDDLE_BUTTON] at h3
  simp [monitorDispatches, eventDispatch, h1, h2, h3]

/-- Witness for C2 at code 272 (BTN_LEFT) with value 1. -/
theorem unrecognized_code_no_dispatch_witness :
    ((272 : Nat) ≠ TOP_BUTTON ∧ (272 : Nat) ≠ BOTTOM_BUTTON ∧
      (272 : Nat) ≠ MIDDLE_BUTTON) ∧
    monitorDispatches [{ type := EV_KEY, code := 272, value := 1 }] = [] :=
  ⟨by decide,
   unrecognized_code_no_dispatch { type := EV_KEY, code := 272, value := 1 } (by decide)⟩

/-- C3: a down event for 275 followed by a down event for 274 makes the
listener invoke the dispatcher exactly twice, first with the bottom
combo and then with the middle combo, in that order. -/
theorem bottom_then_middle_in_order :
    monitorDispatches
      [{ type := EV_KEY, code := BOTTOM_BUTTON, value := 1 },
       { type := EV_KEY, code := MIDDLE_BUTTON, value := 1 }] =
    ["ctrl+v", "ctrl+c"] := by decide

/-- C4: if discovery yields no eligible devices, `main` exits with
status 1, spawns zero listener threads and performs zero dispatches. -/
theorem empty_discovery_exits_one (cs : List Candidate)
    (env : String → DeviceSession) (interrupt : Bool)
    (h : discover cs = []) :
    (pyMain cs env interrupt).exitCode = some 1 ∧
    (pyMain cs env interrupt).spawned = [] ∧
    (pyMain cs env interrupt).dispatches = [] := by
  simp [pyMain, h]

/-- Witness for C4: a single candidate with no recognized buttons. -/
theorem empty_discovery_exits_one_witness :
    discover [{ path := "/dev/input/event3", inspect := some [(1, [272, 273])] }] = [] ∧
    ((pyMain [{ path := "/dev/input/event3", inspect := some [(1, [272, 273])] }]
        (fun _ => { openFails := false, events := [], readError := false })
        false).exitCode = some 1 ∧
     (pyMain [{ path := "/dev/input/event3", inspect := some [(1, [272, 273])] }]
        (fun _ => { openFails := false, events := [], readError := false })
        false).spawned = [] ∧
     (pyMain [{ path := "/dev/input/event3", inspect := some [(1, [272, 273])] }]
        (fun _ => { openFails := false, events := [], readError := false })
        false).dispatches = []) :=
  ⟨by decide,
   empty_discovery_exits_one _ _ false (by decide)⟩

/-- C5: discovery is a pure function of the enumerated devices and their
capabilities: two enumerations of the same device set (permutations of
each other) select the same set of paths, order irrelevant. -/
theorem discovery_idempotent (cs1 cs2 : List Candidate) (h : cs1.Perm cs2) :
    (discover cs1).toFinset = (discover cs2).toFinset := by
  unfold discover
  exact List.toFinset_eq_of_perm _ _ ((h.filter selectCandidate).map Candidate.path)

/-- Witness for C5 on a two-candidate enumeration and its swap. -/
theorem discovery_idempotent_witness :
    List.Perm
      [{ path := "/dev/input/event1", inspect := some [(1, [276])] },
       ({ path := "/dev/input/event2", inspect := none } : Candidate)]
      [{ path := "/dev/input/event2", inspect := none },
       ({ path := "/dev/input/event1", inspect := some [(1, [276])] } : Candidate)] ∧
    (discover
      [{ path := "/dev/input/event1", inspect := some [(1, [276])] },
       { path := "/dev/input/event2", inspect := none }]).toFinset =
    (discover
      [{ path := "/dev/input/event2", inspect := none },
       { path := "/dev/input/event1", inspect := some [(1, [276])] }]).toFinset :=
  ⟨List.Perm.swap _ _ _,
   discovery_idempotent _ _ (List.Perm.swap _ _ _)⟩

/-- C6: a candidate is selected by discovery iff it opens and inspects
successfully and its key-event capability set meets the recognized
button-code set {276, 275, 274}; a candidate whose open or inspection
fails is warned about and skipped, leaving the rest of the enumeration
unchanged. -/
theorem discovery_selection_iff (c : Candidate) (cs : List Candidate) :
    (selectCandidate c = true ↔ specSelected c) ∧
    (c.inspect = none →
      discover (c :: cs) = discover cs ∧
      c.path ∈ discoverWarnings (c :: cs)) := by
  constructor
  · unfold selectCandidate specSelected
    cases hins : c.inspect with
    | none => simp [hins]
    | some caps =>
      cases hkc : keyCaps caps with
      | none =>
        simp only [hkc]
        constructor
        · intro h; exact absurd h (by simp)
        · rintro ⟨caps2, hc2, k, hk, _⟩
          injection hc2 with hc2; subst hc2
          rw [hkc] at hk; simp at hk
      | some keys =>
        simp only [hkc]
        rw [wanted_iff]
        constructor
        · rintro ⟨k, hk, hm⟩
          exact ⟨caps, rfl, k, by rw [hkc]; exact hk, hm⟩
        · rintro ⟨caps2, hc2, k, hk, hm⟩
          injection hc2 with hc2; subst hc2
          rw [hkc] at hk
          exact ⟨k, hk, hm⟩
  · intro hfail
    constructor
    · unfold discover
      rw [List.filter_cons_of_neg]
      simp [selectCandidate, hfail]
    · unfold discoverWarnings
      rw [List.filter_cons_of_pos]
      · simp
      · simp [hfail]

/-- Witness for C6 at a failing candidate followed by a good one. -/
theorem discovery_selection_iff_witness :
    ((selectCandidate { path := "/dev/input/event9", inspect := none } = true ↔
       specSelected { path := "/dev/input/event9", inspect := none }) ∧
     (({ path := "/dev/input/event9", inspect := none } : Candidate).inspect = none →
       discover
         [{ path := "/dev/input/event9", inspect := none },
          { path := "/dev/input/event1", inspect := some [(1, [275])] }] =
       discover [{ path := "/dev/input/event1", inspect := some [(1, [275])] }] ∧
       "/dev/input/event9" ∈ discoverWarnings
         [{ path := "/dev/input/event9", inspect := none },
          { path := "/dev/input/event1", inspect := some [(1, [275])] }])) :=
  discovery_selection_iff
    { path := "/dev/input/event9", inspect := none }
    [{ path := "/dev/input/event1", inspect := some [(1, [275])] }]

/-- C7: the dispatcher never raises to its caller — for every combo and
every subprocess behaviour, it attempts exactly one subprocess run (no
retry), logs an error when the run is not a success, and the listener
loop dispatches every combo of its stream regardless of outcomes. -/
theorem dispatch_never_raises (combo : String)
    (subproc : List String → SubprocResult) (events : List InputEvent) :
    (run_ydotool_key combo subproc).raised = false ∧
    (run_ydotool_key combo subproc).attempts = [ydotoolCmd combo] ∧
    (subproc (ydotoolCmd combo) ≠ SubprocResult.ok →
      (run_ydotool_key combo subproc).errorLogged = true) ∧
    (monitorRun events subproc).length = (monitorDispatches events).length ∧
    ∀ r ∈ monitorRun events subproc, r.raised = false := by
  have hraise : ∀ c, (run_ydotool_key c subproc).raised = false := by
    intro c
    rcases hs : subproc (ydotoolCmd c) with _ | n | _ <;>
      simp [run_ydotool_key, hs]
  have hatt : (run_ydotool_key combo subproc).attempts = [ydotoolCmd combo] := by
    rcases hs : subproc (ydotoolCmd combo) with _ | n | _ <;>
      simp [run_ydotool_key, hs]
  have herr : subproc (ydotoolCmd combo) ≠ SubprocResult.ok →
      (run_ydotool_key combo subproc).errorLogged = true := by
    intro hne
    rcases hs : subproc (ydotoolCmd combo) with _ | n | _
    · exact absurd hs hne
    · simp [run_ydotool_key, hs]
    · simp [run_ydotool_key, hs]
  refine ⟨hraise combo, hatt, herr, by simp [monitorRun], ?_⟩
  intro r hr
  simp only [monitorRun, List.mem_map] at hr
  obtain ⟨c, _, rfl⟩ := hr
  exact hraise c

/-- Witness for C7 with a subprocess that always fails to launch. -/
theorem dispatch_never_raises_witness :
    ((run_ydotool_key "ctrl+c" (fun _ => SubprocResult.launchFailure)).raised = false ∧
     (run_ydotool_key "ctrl+c" (fun _ => SubprocResult.launchFailure)).attempts =
       [ydotoolCmd "ctrl+c"] ∧
     ((fun _ => SubprocResult.launchFailure) (ydotoolCmd "ctrl+c") ≠ SubprocResult.ok →
       (run_ydotool_key "ctrl+c" (fun _ => SubprocResult.launchFailure)).errorLogged = true) ∧
     (monitorRun [{ type := EV_KEY, code := 275, value := 1 }]
        (fun _ => SubprocResult.launchFailure)).length =
       (monitorDispatches [{ type := EV_KEY, code := 275, value := 1 }]).length ∧
     ∀ r ∈ monitorRun [{ type := EV_KEY, code := 275, value := 1 }]
        (fun _ => SubprocResult.launchFailure), r.raised = false) :=
  dispatch_never_raises "ctrl+c" (fun _ => SubprocResult.launchFailure)
    [{ type := EV_KEY, code := 275, value := 1 }]

/-- C8: a listener never propagates an exception, logs an error whenever
opening fails or the read loop errors, and the outcome of listener i
depends only on session i — other listeners are unaffected. -/
theorem listener_never_propagates (s : DeviceSession)
    (sessions : List DeviceSession) (i : Nat) :
    (monitor_device s).raised = false ∧
    ((s.openFails = true ∨ s.readError = true) →
      (monitor_device s).errorLogged = true) ∧
    (runListeners sessions)[i]? = (sessions[i]?).map monitor_device := by
  refine ⟨?_, ?_, ?_⟩
  · unfold monitor_device
    split <;> rfl
  · intro h
    unfold monitor_device
    rcases h with h | h
    · simp [h]
    · by_cases ho : s.openFails <;> simp [ho, h]
  · simp [runListeners]

/-- Witness for C8: device A errors after one event while device B keeps
dispatching. -/
theorem listener_never_propagates_witness :
    ((monitor_device sessA).raised = false ∧
     ((sessA.openFails = true ∨ sessA.readError = true) →
       (monitor_device sessA).errorLogged = true) ∧
     (runListeners [sessA, sessB])[1]? = (([sessA, sessB])[1]?).map monitor_device) :=
  listener_never_propagates sessA [sessA, sessB] 1

/-- C9: when discovery is non-empty the supervisor spawns one listener
per discovered path and blocks; an interrupt yields exit status 0 with a
shutdown log, no interrupt means it never exits, and exit status 0 only
arises from the interrupt path with non-empty discovery. -/
theorem supervisor_exit_codes (cs : List Candidate)
    (env : String → DeviceSession) (interrupt : Bool)
    (h : discover cs ≠ []) :
    (pyMain cs env interrupt).spawned = discover cs ∧
    (interrupt = true → (pyMain cs env interrupt).exitCode = some 0 ∧
      (pyMain cs env interrupt).shutdownLogged = true) ∧
    (interrupt = false → (pyMain cs env interrupt).exitCode = none) ∧
    ∀ (cs2 : List Candidate) (env2 : String → DeviceSession) (i2 : Bool),
      (pyMain cs2 env2 i2).exitCode = some 0 → i2 = true ∧ discover cs2 ≠ [] := by
  have hne : (discover cs).isEmpty = false := by
    cases hd : discover cs with
    | nil => exact absurd hd h
    | cons a l => rfl
  refine ⟨?_, ?_, ?_, ?_⟩
  · cases interrupt <;> simp [pyMain, hne]
  · intro hi; subst hi; simp [pyMain, hne]
  · intro hi; subst hi; simp [pyMain, hne]
  · intro cs2 env2 i2 hexit
    by_cases h2 : (discover cs2).isEmpty = true
    · simp [pyMain, h2] at hexit
    · cases i2
      · simp [pyMain, h2] at hexit
      · refine ⟨rfl, ?_⟩
        intro hnil
        rw [hnil] at h2
        exact h2 rfl

/-- Witness for C9 at one eligible device with an interrupt arriving. -/
theorem supervisor_exit_codes_witness :
    discover [{ path := "/dev/input/event1", inspect := some [(1, [276])] }] ≠ [] ∧
    ((pyMain [{ path := "/dev/input/event1", inspect := some [(1, [276])] }]
        (fun _ => { openFails := false, events := [], readError := false })
        true).spawned =
      discover [{ path := "/dev/input/event1", inspect := some [(1, [276])] }] ∧
     (true = true →
       (pyMain [{ path := "/dev/input/event1", inspect := some [(1, [276])] }]
          (fun _ => { openFails := false, events := [], readError := false })
          true).exitCode = some 0 ∧
       (pyMain [{ path := "/dev/input/event1", inspect := some [(1, [276])] }]
          (fun _ => { openFails := false, events := [], readError := false })
          true).shutdownLogged = true) ∧
     (true = false →
       (pyMain [{ path := "/dev/input/event1", inspect := some [(1, [276])] }]
          (fun _ => { openFails := false, events := [], readError := false })
          true).exitCode = none) ∧
     ∀ (cs2 : List Candidate) (env2 : String → DeviceSession) (i2 : Bool),
       (pyMain cs2 env2 i2).exitCode = some 0 → i2 = true ∧ discover cs2 ≠ []) :=
  ⟨by decide,
   supervisor_exit_codes
     [{ path := "/dev/input/event1", inspect := some [(1, [276])] }]
     (fun _ => { openFails := false, events := [], readError := false })
     true (by decide)⟩

/-- C10: every combo a listener can dispatch is one of the three fixed
whitespace-free strings, its whitespace split yields exactly that one
token, and the subprocess argument vector is exactly
["ydotool", "key", combo]. -/
theorem ydotool_argv_invariant (events : List InputEvent) (c : String)
    (h : c ∈ monitorDispatches events) :
    (c = "super+shift+3" ∨ c = "ctrl+v" ∨ c = "ctrl+c") ∧
    pySplit c = [c] ∧
    ydotoolCmd c = ["ydotool", "key", c] := by
  have hmem : c = "super+shift+3" ∨ c = "ctrl+v" ∨ c = "ctrl+c" := by
    simp only [monitorDispatches, List.mem_flatMap] at h
    obtain ⟨e, _, hce⟩ := h
    exact eventDispatch_mem_fixed e c hce
  refine ⟨hmem, ?_, ?_⟩
  · rcases hmem with rfl | rfl | rfl <;> decide
  · rcases hmem with rfl | rfl | rfl <;> decide

/-- Witness for C10 at a top-button press. -/
theorem ydotool_argv_invariant_witness :
    "super+shift+3" ∈
      monitorDispatches [{ type := EV_KEY, code := 276, value := 1 }] ∧
    (("super+shift+3" = "super+shift+3" ∨ "super+shift+3" = "ctrl+v" ∨
        "super+shift+3" = "ctrl+c") ∧
     pySplit "super+shift+3" = ["super+shift+3"] ∧
     ydotoolCmd "super+shift+3" = ["ydotool", "key", "super+shift+3"]) :=
  ⟨by decide,
   ydotool_argv_invariant [{ type := EV_KEY, code := 276, value := 1 }]
     "super+shift+3" (by decide)⟩

end MouseRemap
